import Mathlib

/-!
Verification development for the FRED data-scheduler / market-data acquisition
subsystem of the finance-procject repository.

The Lean definitions below are shallow embeddings of the Python source:

* `backend/app/services/data_scheduler.py` — `FREDDataScheduler`
  (`INDICATOR_SCHEDULES`, `_update_single_indicator`, `_update_indicators`,
  `_save_indicator_data`, `_should_update_monthly_indicator`,
  `force_update_indicator`);
* `backend/app/api/v1/scheduler.py` — the force-update API route;
* `backend/app/services/market_data_service.py` — `_is_likely_mock_data`;
* `backend/app/services/providers/yahoo_finance.py` — rate limiting, the
  fallback chain of `_fetch_single_ticker_safely`, `_generate_mock_data`,
  `_fetch_tickers_data_safely`;
* `backend/app/services/providers/alpha_vantage.py` — rate limiting and
  `_fetch_multiple_quotes`.

Python `datetime` values are embedded as calendar tuples compared on an
absolute-minute timeline; `time.time()` instants and float quantities are
embedded as rationals; Python dictionaries keyed by strings are embedded as
association lists.
-/

/-- `UpdateFrequency` enum from `data_scheduler.py`. -/
inductive UpdateFrequency where
  | daily
  | weekly
  | monthly
  | quarterly
deriving DecidableEq, Repr

/-- Python `datetime.time` (hour, minute), as used for `release_time`. -/
structure PyTime where
  hour : Nat
  minute : Nat
deriving DecidableEq, Repr

/-- The `IndicatorSchedule` dataclass from `data_scheduler.py`. -/
structure IndicatorSchedule where
  indicator_code : String
  frequency : UpdateFrequency
  release_time : PyTime
  release_day : Option Nat := none
  business_days_delay : Nat := 1
deriving DecidableEq, Repr

/-- The static `FREDDataScheduler.INDICATOR_SCHEDULES` registry, entry for
entry as written in `data_scheduler.py` (dict embedded as an association
list in source order). -/
def INDICATOR_SCHEDULES : List (String × IndicatorSchedule) :=
  [ ("DGS2",
      { indicator_code := "DGS2", frequency := .daily, release_time := ⟨6, 0⟩,
        business_days_delay := 1 }),
    ("DGS10",
      { indicator_code := "DGS10", frequency := .daily, release_time := ⟨6, 0⟩,
        business_days_delay := 1 }),
    ("BAMLH0A0HYM2",
      { indicator_code := "BAMLH0A0HYM2", frequency := .daily, release_time := ⟨6, 0⟩,
        business_days_delay := 1 }),
    ("UNRATE",
      { indicator_code := "UNRATE", frequency := .monthly, release_time := ⟨22, 30⟩,
        release_day := some 6, business_days_delay := 1 }),
    ("PAYEMS",
      { indicator_code := "PAYEMS", frequency := .monthly, release_time := ⟨22, 30⟩,
        release_day := some 6, business_days_delay := 1 }),
    ("AHEPA",
      { indicator_code := "AHEPA", frequency := .monthly, release_time := ⟨22, 30⟩,
        release_day := some 6, business_days_delay := 1 }),
    ("CPIAUCSL",
      { indicator_code := "CPIAUCSL", frequency := .monthly, release_time := ⟨22, 30⟩,
        release_day := some 12, business_days_delay := 1 }),
    ("PPIACO",
      { indicator_code := "PPIACO", frequency := .monthly, release_time := ⟨22, 30⟩,
        release_day := some 14, business_days_delay := 1 }),
    ("T10YIE",
      { indicator_code := "T10YIE", frequency := .daily, release_time := ⟨6, 0⟩,
        business_days_delay := 1 }),
    ("USACPIALL",
      { indicator_code := "USACPIALL", frequency := .monthly, release_time := ⟨22, 30⟩,
        release_day := some 12, business_days_delay := 1 }),
    ("M2SL",
      { indicator_code := "M2SL", frequency := .weekly, release_time := ⟨6, 0⟩,
        business_days_delay := 1 }),
    ("FEDFUNDS",
      { indicator_code := "FEDFUNDS", frequency := .daily, release_time := ⟨6, 0⟩,
        business_days_delay := 1 }),
    ("TEDRATE",
      { indicator_code := "TEDRATE", frequency := .daily, release_time := ⟨6, 0⟩,
        business_days_delay := 1 }),
    ("STLFSI",
      { indicator_code := "STLFSI", frequency := .weekly, release_time := ⟨6, 0⟩,
        business_days_delay := 1 }),
    ("CLICKSA2",
      { indicator_code := "CLICKSA2", frequency := .monthly, release_time := ⟨22, 30⟩,
        release_day := some 18, business_days_delay := 1 }),
    ("ICSBULL",
      { indicator_code := "ICSBULL", frequency := .monthly, release_time := ⟨6, 0⟩,
        release_day := some 1, business_days_delay := 2 }) ]

/-- The scheduler's `last_check_cache` dict (`str -> datetime`), embedded as an
association list from indicator code to the stored timestamp (an abstract
instant, minutes or any monotone clock). -/
def LastCheckCache : Type := List (String × Nat)

/-- Dictionary read: `self.last_check_cache.get(code)`. -/
def cacheGet (m : LastCheckCache) (k : String) : Option Nat :=
  match m with
  | [] => none
  | (k', v') :: rest => if k' = k then some v' else cacheGet rest k

/-- Dictionary write: `self.last_check_cache[code] = value` (replaces an
existing binding, otherwise appends). -/
def cacheSet (m : LastCheckCache) (k : String) (v : Nat) : LastCheckCache :=
  match m with
  | [] => [(k, v)]
  | (k', v') :: rest => if k' = k then (k, v) :: rest else (k', v') :: cacheSet rest k v

/-- Payload returned by `FREDProvider.get_economic_series`: the scheduler only
inspects its truthiness and its `last_updated` field (`None` when absent);
`value` stands for the rest of the record. -/
structure FredData where
  value : ℚ
  last_updated : Option Nat
deriving DecidableEq, Repr

/-- Outcome of one call of `fred_provider.get_economic_series(code)` inside
`_update_single_indicator`: the call raised, returned a falsy payload
(`if not fred_data`), or returned a usable payload. -/
inductive FetchResult where
  | raised
  | noData
  | payload (d : FredData)
deriving DecidableEq, Repr

/-- What one run of `_update_single_indicator` did. `fetchError` is the
re-raised exception path, `noDataSkip` the `if not fred_data: return` path,
`dedupSkip` the "no new data, skipping update" path, `written` the
`_save_indicator_data` path. -/
inductive UpdateOutcome where
  | fetchError
  | noDataSkip
  | dedupSkip
  | written
deriving DecidableEq, Repr

/-- `FREDDataScheduler._update_single_indicator(code, force_update)` together
with `_get_last_update_time` (a read of `last_check_cache`) and
`_save_indicator_data` (which stores `datetime.now()`, passed here as `now`).
The dedup branch fires exactly when `force_update` is false, a last-check
time is recorded, the payload carries a `last_updated` timestamp, and
`latest_data_date <= last_update`. -/
def _update_single_indicator (fetch : FetchResult) (force_update : Bool)
    (now : Nat) (cache : LastCheckCache) (code : String) :
    UpdateOutcome × LastCheckCache :=
  let last_update := cacheGet cache code
  match fetch with
  | .raised => (.fetchError, cache)
  | .noData => (.noDataSkip, cache)
  | .payload d =>
    match force_update, last_update, d.last_updated with
    | false, some lu, some latest =>
      if latest ≤ lu then (.dedupSkip, cache)
      else (.written, cacheSet cache code now)
    | true, _, _ => (.written, cacheSet cache code now)
    | false, none, _ => (.written, cacheSet cache code now)
    | false, some _, none => (.written, cacheSet cache code now)

/-- `FREDDataScheduler._update_indicators(codes, force_update)`: the per-code
loop whose `try/except` catches each indicator's failure, records it
(`logger.error`) and continues with the next code. The recorded per-code
outcomes are returned alongside the final cache state. -/
def _update_indicators (fetch : String → FetchResult) (force_update : Bool)
    (now : Nat) (cache : LastCheckCache) (codes : List String) :
    List (String × UpdateOutcome) × LastCheckCache :=
  match codes with
  | [] => ([], cache)
  | code :: rest =>
    let r := _update_single_indicator (fetch code) force_update now cache code
    let rs := _update_indicators fetch force_update now r.2 rest
    ((code, r.1) :: rs.1, rs.2)

/-- `FREDDataScheduler.force_update_indicator(code)`: runs
`_update_single_indicator(code, force_update=True)`, returning `True`, or
`False` when that raised. -/
def force_update_indicator (fetch : FetchResult) (now : Nat)
    (cache : LastCheckCache) (code : String) : Bool × LastCheckCache :=
  match _update_single_indicator fetch true now cache code with
  | (.fetchError, c) => (false, c)
  | (_, c) => (true, c)

/-- Result of the `POST /update/indicator/{indicator_code}` route in
`api/v1/scheduler.py`: either the 404 `HTTPException` ("Indicator ... not
found in scheduler configuration"), or HTTP 202 with
`scheduler.force_update_indicator(code)` scheduled as a background task. -/
inductive RouteResult where
  | notFoundError
  | accepted (scheduled_code : String)
deriving DecidableEq, Repr

/-- The `force_update_indicator` API route: checks
`indicator_code not in scheduler.INDICATOR_SCHEDULES` before scheduling any
fetch/write work. -/
def force_update_indicator_route (indicator_code : String) : RouteResult :=
  if (INDICATOR_SCHEDULES.map Prod.fst).contains indicator_code then
    .accepted indicator_code
  else
    .notFoundError

/-- Python `datetime.datetime` (to minute precision, which is all the
scheduler compares). -/
structure PyDateTime where
  year : Nat
  month : Nat
  day : Nat
  hour : Nat
  minute : Nat
deriving DecidableEq, Repr

/-- Gregorian leap-year rule used by Python's `datetime`. -/
def isLeapYear (y : Nat) : Bool :=
  (y % 4 == 0 && y % 100 != 0) || y % 400 == 0

/-- Length of month `m` (1-based) of year `y`. -/
def daysInMonth (y m : Nat) : Nat :=
  if m = 2 then (if isLeapYear y then 29 else 28)
  else if m = 4 ∨ m = 6 ∨ m = 9 ∨ m = 11 then 30
  else 31

/-- Days in all years before year `y` (proleptic Gregorian, `y ≥ 1`). -/
def daysBeforeYear (y : Nat) : Nat :=
  365 * (y - 1) + (y - 1) / 4 - (y - 1) / 100 + (y - 1) / 400

/-- Days in the months of year `y` strictly before month `m` (1-based). -/
def daysBeforeMonth (y m : Nat) : Nat :=
  (List.range (m - 1)).foldl (fun acc i => acc + daysInMonth y (i + 1)) 0

/-- Absolute minute index of a `datetime` on the proleptic Gregorian
timeline. Python `datetime` comparison and `timedelta` addition are
order-isomorphic to arithmetic on this timeline: `a <= b` iff
`pyMinutes a ≤ pyMinutes b`, and `a + timedelta(days=k)` lands at
`pyMinutes a + k * 1440`. -/
def pyMinutes (t : PyDateTime) : Nat :=
  (daysBeforeYear t.year + daysBeforeMonth t.year t.month + t.day) * 1440
    + t.hour * 60 + t.minute

/-- `FREDDataScheduler._should_update_monthly_indicator(schedule, now)`:
returns `False` when `release_day` is `None` or `0` (Python falsiness of
`Optional[int]`), otherwise computes
`release_date = datetime(now.year, now.month, release_day)`,
`update_date = release_date + timedelta(days=business_days_delay)` and
returns `now >= update_date`, here expressed on the absolute-minute
timeline. -/
def _should_update_monthly_indicator (schedule : IndicatorSchedule)
    (now : PyDateTime) : Bool :=
  match schedule.release_day with
  | none => false
  | some d =>
    if d = 0 then false
    else
      decide (pyMinutes ⟨now.year, now.month, d, 0, 0⟩
        + schedule.business_days_delay * 1440 ≤ pyMinutes now)

/-- The spec's monthly due-ness formula, stated from the spec's words:
"due when `now >= date(now.year, now.month, d) + k days`". -/
def monthlyDueSpec (d k : Nat) (now : PyDateTime) : Prop :=
  pyMinutes ⟨now.year, now.month, d, 0, 0⟩ + k * 1440 ≤ pyMinutes now

/-- The fields of a quote record that
`MarketDataService._is_likely_mock_data` inspects (`quote_data.get(...)` with
default `0`): `current_value` and `change_percent` are Python floats
(embedded as rationals), `volume` an integer. -/
structure QuoteData where
  current_value : ℚ
  change_percent : ℚ
  volume : ℤ
deriving DecidableEq, Repr

/-- The literal list of "suspiciously round" values from
`_is_likely_mock_data`: `[100, 1000, 2000, 3000, 4500, 18000, 28000, 35000]`. -/
def mock_round_values : List ℚ :=
  [100, 1000, 2000, 3000, 4500, 18000, 28000, 35000]

/-- Embedding of `str(volume).endswith("000000")` for an integer `volume`:
its decimal numeral ends in six zeros exactly when it is at least one
million and divisible by one million. -/
def volume_str_ends_in_six_zeros (v : ℤ) : Bool :=
  decide (1000000 ≤ v ∧ v % 1000000 = 0)

/-- `MarketDataService._is_likely_mock_data(quote_data)`. The four checks in
source order: zero value; integral value in the round-value list
(`current_value == int(current_value)` holds exactly when the rational has
denominator 1); positive volume that is a multiple of one million or whose
decimal string ends in six zeros; absolute change percent above 10. The
`except` branch (return `True`) is unreachable here since every operation is
total arithmetic. -/
def _is_likely_mock_data (q : QuoteData) : Bool :=
  let current_value := q.current_value
  let change_percent := |q.change_percent|
  let volume := q.volume
  if current_value = 0 then true
  else if current_value.den = 1 ∧ current_value ∈ mock_round_values then true
  else if 0 < volume ∧
      (volume % 1000000 = 0 ∨ volume_str_ends_in_six_zeros volume = true) then true
  else if 10 < change_percent then true
  else false

/-- The normalized ticker dict built by the Yahoo provider's fetch methods
and by `_generate_mock_data` (numeric fields as rationals). -/
structure TickerData where
  regularMarketPrice : ℚ
  regularMarketChange : ℚ
  regularMarketChangePercent : ℚ
  longName : String
  currency : String
  marketState : String
  regularMarketVolume : ℚ
deriving DecidableEq, Repr

/-- `base_prices` table of `YahooFinanceProvider._generate_mock_data`. -/
def base_prices : List (String × ℚ) :=
  [ ("^GSPC", 4500), ("^DJI", 35000), ("^IXIC", 14000), ("^VIX", 20),
    ("^VXN", 25), ("^V2X", 25), ("^VKOSPI", 25), ("^KS11", 2500),
    ("^KQ11", 850), ("^N225", 28000), ("^TPX", 2000), ("^HSI", 18000),
    ("^RUT", 2000), ("^SOX", 3000) ]

/-- Python `round(x, 2)` modelled as rounding to the nearest hundredth
(half away from the floor). -/
def round2 (x : ℚ) : ℚ := (⌊x * 100 + 1 / 2⌋ : ℚ) / 100

/-- Association-list read with default, for Python `dict.get(k, default)`. -/
def dictGetD (m : List (String × ℚ)) (k : String) (default : ℚ) : ℚ :=
  match m with
  | [] => default
  | (k', v') :: rest => if k' = k then v' else dictGetD rest k default

/-- `YahooFinanceProvider._generate_mock_data(yahoo_symbol)`: the random
draws are passed in explicitly — `variation` is the uniform draw in
`±0.05`/`±0.02`, `volume` the `random.randint` draw. -/
def _generate_mock_data (yahoo_symbol : String) (variation : ℚ)
    (volume : ℕ) : TickerData :=
  let base_price := dictGetD base_prices yahoo_symbol 100
  let current_price := base_price * (1 + variation)
  let change := current_price - base_price
  let change_percent := change / base_price * 100
  { regularMarketPrice := round2 current_price,
    regularMarketChange := round2 change,
    regularMarketChangePercent := round2 change_percent,
    longName := yahoo_symbol,
    currency := "USD",
    marketState := "closed",
    regularMarketVolume := (volume : ℚ) }

/-- One iteration of `_fetch_single_ticker_safely`'s retry loop: the outcome
of each of the three fetch strategies tried within that attempt. `some d`
means the strategy produced a usable record (no exception, and for the two
HTTP strategies a positive `regularMarketPrice`); `none` means it failed. -/
structure AttemptMethods where
  history_method : Option TickerData
  direct_api : Option TickerData
  alternative_method : Option TickerData
deriving DecidableEq, Repr

/-- Which branch of `_fetch_single_ticker_safely` produced the returned
record. -/
inductive FetchSource where
  | historyMethod
  | directApi
  | alternativeMethod
  | mockFallback
deriving DecidableEq, Repr

/-- `self.max_retries` of `YahooFinanceProvider`. -/
def max_retries : Nat := 3

/-- The retry loop of `_fetch_single_ticker_safely`: within each attempt try
the history method, then the direct API, then the alternative endpoint;
return the first usable record, otherwise back off and move to the next
attempt. -/
def run_fetch_attempts (attempts : List AttemptMethods) :
    Option (FetchSource × TickerData) :=
  match attempts with
  | [] => none
  | a :: rest =>
    match a.history_method with
    | some d => some (.historyMethod, d)
    | none =>
      match a.direct_api with
      | some d => some (.directApi, d)
      | none =>
        match a.alternative_method with
        | some d => some (.alternativeMethod, d)
        | none => run_fetch_attempts rest

/-- `YahooFinanceProvider._fetch_single_ticker_safely(yahoo_symbol)`: runs
the retry loop over `attempts` (one entry per loop iteration, `max_retries`
of them) and, when every strategy of every attempt has failed, returns
`_generate_mock_data` instead of raising. -/
def _fetch_single_ticker_safely (attempts : List AttemptMethods)
    (yahoo_symbol : String) (variation : ℚ) (volume : ℕ) :
    FetchSource × TickerData :=
  match run_fetch_attempts attempts with
  | some r => r
  | none => (.mockFallback, _generate_mock_data yahoo_symbol variation volume)

/-- `YahooFinanceProvider._fetch_tickers_data_safely(symbols)`: fetches every
symbol through `_fetch_single_ticker_safely`; a symbol whose fetch fails is
still given an entry (`_generate_mock_data`), never dropped. `attemptsFor`,
`variationFor` and `volumeFor` supply each symbol's strategy outcomes and
random draws. -/
def _fetch_tickers_data_safely (attemptsFor : String → List AttemptMethods)
    (variationFor : String → ℚ) (volumeFor : String → ℕ)
    (symbols : List String) : List (String × TickerData) :=
  symbols.map fun s =>
    (s, (_fetch_single_ticker_safely (attemptsFor s) s (variationFor s) (volumeFor s)).2)

/-- `AlphaVantageProvider._fetch_multiple_quotes(symbols)`: per symbol, map
through `SYMBOL_MAPPING` (defaulting to the symbol itself) and call
`_fetch_single_quote`; on failure (`except`) log and `continue`, excluding
the symbol from the result. `α` is the raw "Global Quote" payload type;
`fetch` returns `none` when `_fetch_single_quote` raised. -/
def _fetch_multiple_quotes {α : Type} (fetch : String → Option α)
    (symbol_mapping : String → Option String) (symbols : List String) :
    List (String × α) :=
  match symbols with
  | [] => []
  | s :: rest =>
    match fetch ((symbol_mapping s).getD s) with
    | some q => (s, q) :: _fetch_multiple_quotes fetch symbol_mapping rest
    | none => _fetch_multiple_quotes fetch symbol_mapping rest

/-- `self.request_delay` of `AlphaVantageProvider` (seconds). -/
def alpha_request_delay : ℚ := 12

/-- `self.request_delay` of `YahooFinanceProvider` (seconds). -/
def yahoo_request_delay : ℚ := 3

/-- `AlphaVantageProvider._wait_for_rate_limit()`: given the stored
`last_request_time` and the current `time.time()`, sleeps
`request_delay - time_since_last` when the elapsed time is below
`request_delay`, then records the post-sleep instant as the new
`last_request_time`. Returns that instant — the time at which the request
is actually issued. -/
def alpha_wait_for_rate_limit (last_request_time current_time : ℚ) : ℚ :=
  let time_since_last := current_time - last_request_time
  if time_since_last < alpha_request_delay then
    current_time + (alpha_request_delay - time_since_last)
  else
    current_time

/-- `YahooFinanceProvider._wait_for_rate_limit()`: as for Alpha Vantage but
with a 3-second delay plus a `random.uniform(0.5, 2.0)` jitter added to the
sleep; `jitter` is that draw. Returns the instant at which the request is
issued (the new `last_request_time`). -/
def yahoo_wait_for_rate_limit (last_request_time current_time jitter : ℚ) : ℚ :=
  let time_since_last := current_time - last_request_time
  if time_since_last < yahoo_request_delay then
    current_time + (yahoo_request_delay - time_since_last + jitter)
  else
    current_time

theorem cacheGet_cacheSet_self (m : LastCheckCache) (k : String) (v : Nat) :
    cacheGet (cacheSet m k v) k = some v := by
  induction m with
  | nil => simp [cacheGet, cacheSet]
  | cons hd tl ih =>
    obtain ⟨k', v'⟩ := hd
    by_cases h : k' = k
    · simp [cacheGet, cacheSet, h]
    · simp [cacheGet, cacheSet, h, ih]

theorem cacheGet_cacheSet_ne (m : LastCheckCache) (k k' : String) (v : Nat)
    (h : k' ≠ k) : cacheGet (cacheSet m k v) k' = cacheGet m k' := by
  have h' : ¬ k = k' := fun hh => h hh.symm
  induction m with
  | nil => simp [cacheGet, cacheSet, h']
  | cons hd tl ih =>
    obtain ⟨k₀, v₀⟩ := hd
    by_cases hk : k₀ = k
    · subst hk
      simp [cacheGet, cacheSet, h']
    · by_cases hk' : k₀ = k'
      · simp [cacheGet, cacheSet, hk, hk', h]
      · simp [cacheGet, cacheSet, hk, hk', ih]

/-- Helper: the volume check of `_is_likely_mock_data` — positive and
(`% 1000000 == 0` or decimal string ending in six zeros) — is equivalent to
being a positive exact multiple of one million. -/
theorem volume_condition_iff (v : ℤ) :
    (0 < v ∧ (v % 1000000 = 0 ∨ volume_str_ends_in_six_zeros v = true)) ↔
    (0 < v ∧ (1000000 : ℤ) ∣ v) := by
  unfold volume_str_ends_in_six_zeros
  constructor
  · rintro ⟨hv, h | h⟩
    · exact ⟨hv, Int.dvd_of_emod_eq_zero h⟩
    · have h' : (1000000 : ℤ) ≤ v ∧ v % 1000000 = 0 := by simpa using h
      exact ⟨hv, Int.dvd_of_emod_eq_zero h'.2⟩
  · rintro ⟨hv, hd⟩
    exact ⟨hv, Or.inl (Int.emod_eq_zero_of_dvd hd)⟩

/-- Claim C1 (confirmed). Dedup idempotence of the coordinator's check with
force disabled: starting from a state with no recorded last-check for
`code`, a first run on an adapter payload whose upstream timestamp `ts` is
at most the write instant `t1` performs the one and only write (storing
`t1`), and a second run on the unchanged payload at any later instant `t2`
compares `ts` against the recorded `t1`, finds it not newer, records a
dedup-skip, and leaves the state untouched. -/
theorem check_indicators_dedup_idempotent
    (d : FredData) (ts t1 t2 : Nat) (cache : LastCheckCache) (code : String)
    (hfresh : cacheGet cache code = none)
    (hts : d.last_updated = some ts) (hle : ts ≤ t1) :
    _update_single_indicator (.payload d) false t1 cache code
        = (.written, cacheSet cache code t1) ∧
    _update_single_indicator (.payload d) false t2 (cacheSet cache code t1) code
        = (.dedupSkip, cacheSet cache code t1) := by
  constructor
  · simp [_update_single_indicator, hfresh, hts]
  · simp [_update_single_indicator, cacheGet_cacheSet_self, hts, hle]

/-- Witness for claim C1 at a concrete input: code `"DGS10"`, empty state,
upstream timestamp 4, first write at instant 10, second run at instant 20. -/
theorem check_indicators_dedup_idempotent_witness :
    _update_single_indicator (.payload ⟨(5 : ℚ), some 4⟩) false 10 [] "DGS10"
        = (.written, cacheSet [] "DGS10" 10) ∧
    _update_single_indicator (.payload ⟨(5 : ℚ), some 4⟩) false 20
        (cacheSet [] "DGS10" 10) "DGS10"
        = (.dedupSkip, cacheSet [] "DGS10" 10) :=
  check_indicators_dedup_idempotent ⟨(5 : ℚ), some 4⟩ 4 10 20 [] "DGS10" rfl rfl
    (by decide)

/-- Claim C2 (confirmed). Monthly due-ness: for every registered
monthly/quarterly indicator with `release_day = d` and
`business_days_delay = k`, and every `now`, the monthly trigger's due-ness
check holds exactly when `now >= date(now.year, now.month, d) + k days`; in
particular with `d = 12`, `k = 1`, a `now` on day 13 is due and a `now` on
day 11 is not. -/
theorem monthly_dueness_registry :
    (∀ c s, (c, s) ∈ INDICATOR_SCHEDULES →
      (s.frequency = .monthly ∨ s.frequency = .quarterly) →
      ∀ d, s.release_day = some d → ∀ now : PyDateTime,
        (_should_update_monthly_indicator s now = true ↔
          monthlyDueSpec d s.business_days_delay now)) ∧
    _should_update_monthly_indicator
      ⟨"CPIAUCSL", .monthly, ⟨22, 30⟩, some 12, 1⟩ ⟨2024, 5, 13, 0, 0⟩ = true ∧
    _should_update_monthly_indicator
      ⟨"CPIAUCSL", .monthly, ⟨22, 30⟩, some 12, 1⟩ ⟨2024, 5, 11, 23, 59⟩ = false := by
  refine ⟨?_, by decide, by decide⟩
  intro c s hmem hfreq d hd now
  have hd0 : d ≠ 0 := by
    have hall : ∀ p ∈ INDICATOR_SCHEDULES, p.2.release_day ≠ some 0 := by decide
    intro h0
    apply hall (c, s) hmem
    rw [hd, h0]
  simp [_should_update_monthly_indicator, hd, hd0, monthlyDueSpec]

/-- Witness for claim C2: the registered CPI schedule (`release_day = 12`,
delay 1) evaluated at a concrete `now`. -/
theorem monthly_dueness_registry_witness :
    _should_update_monthly_indicator
        ⟨"CPIAUCSL", .monthly, ⟨22, 30⟩, some 12, 1⟩ ⟨2024, 7, 13, 6, 0⟩ = true ↔
      monthlyDueSpec 12 1 ⟨2024, 7, 13, 6, 0⟩ :=
  monthly_dueness_registry.1 "CPIAUCSL" ⟨"CPIAUCSL", .monthly, ⟨22, 30⟩, some 12, 1⟩
    (by decide) (Or.inl rfl) 12 rfl ⟨2024, 7, 13, 6, 0⟩

/-- Claim C3 counterexample. The claim's disjunction demands a flag whenever
`volume` is an exact multiple of one million; `volume = 0` is such a
multiple, yet the detector leaves the record
`{value: 4532.17, volume: 0, change_percent: 0.8}` unflagged, because the
code additionally requires `volume > 0`. -/
theorem mock_detector_zero_volume_counterexample :
    (1000000 : ℤ) ∣ (0 : ℤ) ∧
    _is_likely_mock_data ⟨4532.17, 0.8, 0⟩ = false := by
  refine ⟨⟨0, by norm_num⟩, ?_⟩
  simp only [_is_likely_mock_data]
  split_ifs with h1 h2 h3 h4
  · exact absurd h1 (by norm_num)
  · exact absurd h2.2 (by norm_num [mock_round_values])
  · exact absurd h3.1 (by norm_num)
  · refine absurd h4 ?_
    rw [abs_of_nonneg (show (0 : ℚ) ≤ 0.8 by norm_num)]
    norm_num
  · rfl

/-- Claim C3 (corrected). The detector flags a record exactly when one of
the following holds: `value == 0`; `value` an integer member of the round
set; `volume` positive and an exact multiple of one million;
`|change_percent| > 10`. In particular
`{value: 3000, volume: 5000000, change_percent: 15}` is flagged true and
`{value: 4532.17, volume: 1234567, change_percent: 0.8}` is flagged
false. -/
theorem mock_detector_amended :
    (∀ q : QuoteData,
      _is_likely_mock_data q = true ↔
        (q.current_value = 0 ∨
         (q.current_value.den = 1 ∧ q.current_value ∈ mock_round_values) ∨
         (0 < q.volume ∧ (1000000 : ℤ) ∣ q.volume) ∨
         10 < |q.change_percent|)) ∧
    _is_likely_mock_data ⟨3000, 15, 5000000⟩ = true ∧
    _is_likely_mock_data ⟨4532.17, 0.8, 1234567⟩ = false := by
  have hiff : ∀ q : QuoteData,
      _is_likely_mock_data q = true ↔
        (q.current_value = 0 ∨
         (q.current_value.den = 1 ∧ q.current_value ∈ mock_round_values) ∨
         (0 < q.volume ∧ (1000000 : ℤ) ∣ q.volume) ∨
         10 < |q.change_percent|) := by
    intro q
    simp only [_is_likely_mock_data]
    split_ifs with h1 h2 h3 h4
    · simpa using Or.inl h1
    · simpa using Or.inr (Or.inl h2)
    · simpa using Or.inr (Or.inr (Or.inl ((volume_condition_iff q.volume).mp h3)))
    · simpa using Or.inr (Or.inr (Or.inr h4))
    · simp only [Bool.false_eq_true, false_iff]
      intro hcontra
      rcases hcontra with h | h | h | h
      · exact h1 h
      · exact h2 h
      · exact h3 ((volume_condition_iff q.volume).mpr h)
      · exact h4 h
  refine ⟨hiff, ?_, ?_⟩
  · exact (hiff ⟨3000, 15, 5000000⟩).mpr
      (Or.inr (Or.inr (Or.inl ⟨by norm_num, by norm_num⟩)))
  · cases hb : _is_likely_mock_data ⟨4532.17, 0.8, 1234567⟩ with
    | false => rfl
    | true =>
      exfalso
      rcases (hiff _).mp hb with h | h | h | h
      · exact absurd h (by norm_num)
      · exact absurd h.2 (by norm_num [mock_round_values])
      · exact absurd h.2 (by norm_num)
      · rw [abs_of_nonneg (show (0 : ℚ) ≤ 0.8 by norm_num)] at h
        exact absurd h (by norm_num)

/-- Claim C4 (confirmed). Fallback-chain degradation: when the history
method, the direct HTTP endpoint and the alternative endpoint all fail on
every one of the `max_retries` attempts, the Yahoo adapter's single-ticker
fetch returns the synthetic placeholder built by `_generate_mock_data`
(tagged here by the `mockFallback` provenance) instead of propagating an
error — the function is total and has no failing outcome. -/
theorem fallback_chain_degrades (attempts : List AttemptMethods)
    (yahoo_symbol : String) (variation : ℚ) (volume : ℕ)
    (hlen : attempts.length = max_retries)
    (hfail : ∀ a ∈ attempts, a.history_method = none ∧ a.direct_api = none ∧
      a.alternative_method = none) :
    _fetch_single_ticker_safely attempts yahoo_symbol variation volume
      = (.mockFallback, _generate_mock_data yahoo_symbol variation volume) := by
  have hrun : ∀ l : List AttemptMethods,
      (∀ a ∈ l, a.history_method = none ∧ a.direct_api = none ∧
        a.alternative_method = none) →
      run_fetch_attempts l = none := by
    intro l
    induction l with
    | nil => intro _; rfl
    | cons a rest ih =>
      intro hf
      obtain ⟨h1, h2, h3⟩ := hf a (List.mem_cons_self a rest)
      simp [run_fetch_attempts, h1, h2, h3]
      exact ih fun b hb => hf b (List.mem_cons_of_mem a hb)
  simp [_fetch_single_ticker_safely, hrun attempts hfail]

/-- Witness for claim C4: three attempts, every strategy failing, for
`"^GSPC"` with a 1% variation draw and a 5,000,000 volume draw. -/
theorem fallback_chain_degrades_witness :
    _fetch_single_ticker_safely
        (List.replicate 3 ⟨none, none, none⟩) "^GSPC" (1 / 100) 5000000
      = (.mockFallback, _generate_mock_data "^GSPC" (1 / 100) 5000000) :=
  fallback_chain_degrades (List.replicate 3 ⟨none, none, none⟩) "^GSPC"
    (1 / 100) 5000000 (by decide) (by decide)

/-- Claim C5 (confirmed). Per-indicator failure isolation: for every list of
indicator codes, the coordinator's batch update records one outcome per code
in order (no indicator is skipped because an earlier one failed), and every
code whose adapter call raised is recorded as a `fetchError` at the batch
boundary while processing continues. -/
theorem update_indicators_failure_isolated
    (fetch : String → FetchResult) (force_update : Bool) (now : Nat)
    (cache : LastCheckCache) (codes : List String) :
    ((_update_indicators fetch force_update now cache codes).1.map Prod.fst
        = codes) ∧
    (∀ code ∈ codes, fetch code = .raised →
      (code, UpdateOutcome.fetchError)
        ∈ (_update_indicators fetch force_update now cache codes).1) := by
  induction codes generalizing cache with
  | nil => simp [_update_indicators]
  | cons c rest ih =>
    constructor
    · simpa [_update_indicators] using
        (ih ((_update_single_indicator (fetch c) force_update now cache c).2)).1
    · intro code hmem hraised
      rcases List.mem_cons.mp hmem with rfl | hmem
      · have hr : (_update_single_indicator (fetch code) force_update now cache
            code).1 = .fetchError := by
          rw [hraised]
          rfl
        simp [_update_indicators, hr]
      · exact List.mem_cons_of_mem _
          ((ih ((_update_single_indicator (fetch c) force_update now cache c).2)).2
            code hmem hraised)

/-- Witness for claim C5: a two-code batch where the first code's fetch
raises; both codes get recorded outcomes and the failed one is a
`fetchError`. -/
theorem update_indicators_failure_isolated_witness :
    ((_update_indicators
        (fun c => if c = "DGS2" then .raised else .payload ⟨(1 : ℚ), some 3⟩)
        false 7 [] ["DGS2", "DGS10"]).1.map Prod.fst = ["DGS2", "DGS10"]) ∧
    ("DGS2", UpdateOutcome.fetchError)
      ∈ (_update_indicators
        (fun c => if c = "DGS2" then .raised else .payload ⟨(1 : ℚ), some 3⟩)
        false 7 [] ["DGS2", "DGS10"]).1 :=
  ⟨(update_indicators_failure_isolated
      (fun c => if c = "DGS2" then .raised else .payload ⟨(1 : ℚ), some 3⟩)
      false 7 [] ["DGS2", "DGS10"]).1,
   (update_indicators_failure_isolated
      (fun c => if c = "DGS2" then .raised else .payload ⟨(1 : ℚ), some 3⟩)
      false 7 [] ["DGS2", "DGS10"]).2 "DGS2" (by simp) (by decide)⟩

/-- Claim C6 (confirmed). Force-update always writes: whenever the adapter
returns a payload, `force_update_indicator` reports success and stores `now`
as the indicator's last-check time, whatever the previous state held and
whatever the payload's upstream timestamp is. -/
theorem force_update_always_writes (d : FredData) (now : Nat)
    (cache : LastCheckCache) (code : String) :
    force_update_indicator (.payload d) now cache code
        = (true, cacheSet cache code now) ∧
    cacheGet (force_update_indicator (.payload d) now cache code).2 code
        = some now := by
  have h : _update_single_indicator (.payload d) true now cache code
      = (.written, cacheSet cache code now) := rfl
  exact ⟨by simp [force_update_indicator, h],
    by simp [force_update_indicator, h, cacheGet_cacheSet_self]⟩

/-- Claim C7 (confirmed). Unknown-indicator fail-fast: for every code not in
the schedule registry, the force-update route answers with the 404
`UnknownIndicator` error and schedules no fetch or write. -/
theorem force_update_unknown_indicator (code : String)
    (h : (INDICATOR_SCHEDULES.map Prod.fst).contains code = false) :
    force_update_indicator_route code = .notFoundError := by
  unfold force_update_indicator_route
  simp only [h, Bool.false_eq_true, if_false]

/-- Witness for claim C7 at the unregistered code `"GDP"`. -/
theorem force_update_unknown_indicator_witness :
    force_update_indicator_route "GDP" = .notFoundError :=
  force_update_unknown_indicator "GDP" (by decide)

/-- Claim C8 counterexample. The claim demands that a symbol whose fetch
fails be excluded from the batch result; in the Yahoo adapter a symbol whose
fetch fails on every strategy of every attempt (`run_fetch_attempts` yields
nothing) is nevertheless present in the returned mapping (bound, by
`_fetch_single_ticker_safely`, to the generated synthetic placeholder). -/
theorem batch_isolation_counterexample :
    run_fetch_attempts (List.replicate 3 ⟨none, none, none⟩) = none ∧
    (_fetch_tickers_data_safely (fun _ => List.replicate 3 ⟨none, none, none⟩)
        (fun _ => 0) (fun _ => 5000000) ["^GSPC"]).map Prod.fst = ["^GSPC"] :=
  ⟨rfl, rfl⟩

/-- Claim C8 (corrected). Batch per-symbol isolation: the Alpha Vantage
batch fetch excludes failed symbols — its returned mapping lists exactly the
symbols whose fetch succeeded, in order — while the Yahoo batch fetch
returns an entry for every requested symbol (failed ones carrying the
synthetic placeholder); in both adapters every symbol is attempted and no
single symbol's failure aborts the batch. -/
theorem batch_isolation_amended :
    (∀ (α : Type) (fetch : String → Option α) (mapping : String → Option String)
        (symbols : List String),
      (_fetch_multiple_quotes fetch mapping symbols).map Prod.fst
        = symbols.filter (fun s => (fetch ((mapping s).getD s)).isSome)) ∧
    (∀ (attemptsFor : String → List AttemptMethods) (variationFor : String → ℚ)
        (volumeFor : String → ℕ) (symbols : List String),
      (_fetch_tickers_data_safely attemptsFor variationFor volumeFor
        symbols).map Prod.fst = symbols) := by
  constructor
  · intro α fetch mapping symbols
    induction symbols with
    | nil => rfl
    | cons s rest ih =>
      cases hf : fetch ((mapping s).getD s) with
      | some q => simp [_fetch_multiple_quotes, hf, ih, List.filter_cons]
      | none => simp [_fetch_multiple_quotes, hf, ih, List.filter_cons]
  · intro attemptsFor variationFor volumeFor symbols
    induction symbols with
    | nil => rfl
    | cons s rest ih => simpa [_fetch_tickers_data_safely] using ih

/-- Claim C9 (confirmed). Minimum inter-request spacing: the Alpha Vantage
rate limiter never lets a request go out less than 12 seconds after the
recorded time of the previous one; the Yahoo rate limiter never lets one go
out less than 3 seconds after, and whenever it has to wait it spaces the
requests by exactly 3 seconds plus the random jitter draw (which lies in
`[0.5, 2]`). -/
theorem rate_limit_min_spacing :
    (∀ last_request_time current_time : ℚ,
      alpha_request_delay ≤
        alpha_wait_for_rate_limit last_request_time current_time
          - last_request_time) ∧
    (∀ last_request_time current_time jitter : ℚ,
      1 / 2 ≤ jitter → jitter ≤ 2 →
      yahoo_request_delay ≤
        yahoo_wait_for_rate_limit last_request_time current_time jitter
          - last_request_time) ∧
    (∀ last_request_time current_time jitter : ℚ,
      current_time - last_request_time < yahoo_request_delay →
      yahoo_wait_for_rate_limit last_request_time current_time jitter
          - last_request_time = yahoo_request_delay + jitter) := by
  refine ⟨?_, ?_, ?_⟩
  · intro last now
    simp only [alpha_wait_for_rate_limit]
    split_ifs with h
    · linarith
    · linarith [not_lt.mp h]
  · intro last now j hj _
    simp only [yahoo_wait_for_rate_limit]
    split_ifs with h
    · linarith
    · linarith [not_lt.mp h]
  · intro last now j h
    simp only [yahoo_wait_for_rate_limit]
    rw [if_pos h]
    ring

/-- Witness for claim C9: last request at instant 0, next call at instant 1
with jitter 1 — the request is spaced at least 3 seconds, exactly `3 + 1`. -/
theorem rate_limit_min_spacing_witness :
    yahoo_request_delay ≤ yahoo_wait_for_rate_limit 0 1 1 - 0 ∧
    yahoo_wait_for_rate_limit 0 1 1 - 0 = yahoo_request_delay + 1 :=
  ⟨rate_limit_min_spacing.2.1 0 1 1 (by norm_num) (by norm_num),
   rate_limit_min_spacing.2.2 0 1 1 (by norm_num [yahoo_request_delay])⟩

/-- Claim C10 (confirmed). Frame property of a single-indicator update: one
run of `_update_single_indicator` for `code` leaves the last-check entry of
every other code unchanged, whether it wrote, dedup-skipped, found no data,
or failed. -/
theorem update_single_indicator_frame (fetch : FetchResult)
    (force_update : Bool) (now : Nat) (cache : LastCheckCache)
    (code code' : String) (h : code' ≠ code) :
    cacheGet (_update_single_indicator fetch force_update now cache code).2 code'
      = cacheGet cache code' := by
  cases fetch with
  | raised => rfl
  | noData => rfl
  | payload d =>
    cases force_update with
    | true => simp [_update_single_indicator, cacheGet_cacheSet_ne cache code code' now h]
    | false =>
      cases hlu : cacheGet cache code with
      | none =>
        simp [_update_single_indicator, hlu,
          cacheGet_cacheSet_ne cache code code' now h]
      | some lu =>
        cases hld : d.last_updated with
        | none =>
          simp [_update_single_indicator, hlu, hld,
            cacheGet_cacheSet_ne cache code code' now h]
        | some latest =>
          by_cases hle : latest ≤ lu
          · simp [_update_single_indicator, hlu, hld, hle]
          · simp [_update_single_indicator, hlu, hld, hle,
              cacheGet_cacheSet_ne cache code code' now h]

/-- Witness for claim C10: updating `"DGS10"` leaves the entry for `"DGS2"`
untouched. -/
theorem update_single_indicator_frame_witness :
    cacheGet (_update_single_indicator (.payload ⟨(2 : ℚ), some 9⟩) false 10
        [("DGS2", 3)] "DGS10").2 "DGS2"
      = cacheGet [("DGS2", 3)] "DGS2" :=
  update_single_indicator_frame (.payload ⟨(2 : ℚ), some 9⟩) false 10
    [("DGS2", 3)] "DGS10" "DGS2" (by decide)
